import Mathlib

/-!
# Verification of the remove.bg client (`removebg/removebg.py`)

Shallow embedding of the request-construction and response-handling logic of
the `RemoveBg` client class.  Python strings become `String`, optional
parameters (`None` defaults) become `Option String`, byte strings become
`List Nat`, and the effects of one call (network requests issued, log
entries emitted, files written, file handles opened/closed) are collected in
an explicit `Trace`.  External outcomes that the code merely observes
(whether `open` succeeds, what the HTTP POST returns, whether the output
write succeeds) are supplied by a `World` oracle, so every function is a
pure, executable Lean definition.
-/

set_option autoImplicit false

deriving instance DecidableEq for Except

namespace RemoveBg

/-- Python truthiness of an optional string: `None` and `""` are falsy. -/
def strTruthy : Option String → Bool
  | none => false
  | some s => s != ""

/-- A value placed in the outgoing form-data dict.  Distinguishing string
values from native booleans and from Python `None` lets us state that the
flag fields are the literal strings `"true"`/`"false"`. -/
inductive FormValue where
  | str (s : String)
  | boolVal (b : Bool)
  | noneVal
  deriving DecidableEq

/-- One object of the `"errors"` array of a remove.bg error payload; only the
optional `"title"` field is inspected by the code. -/
structure ErrorObj where
  title : Option String
  deriving DecidableEq

/-- Result of `response.json()` as the code distinguishes it:
`notJson` = raises `ValueError`; `jsonNoErrors` = parses but is not a dict
with a truthy `"errors"` list; `jsonErrors` = dict whose `"errors"` value is
a non-empty list. -/
inductive RespBody where
  | notJson
  | jsonNoErrors
  | jsonErrors (first : ErrorObj) (rest : List ErrorObj)
  deriving DecidableEq

/-- The parts of a `requests` response that the code reads. -/
structure Response where
  status_code : Nat
  content : List Nat
  body : RespBody
  deriving DecidableEq

/-- Errors a call can raise to its caller. -/
inductive RBError where
  /-- `ValueError` from `_check_arguments` or the consumption-mode check. -/
  | invalidArgument (msg : String)
  /-- `OSError` from a failed `open` of an input file (propagates). -/
  | ioError (msg : String)
  /-- Exception raised by `session.post` itself (timeout, DNS, ...). -/
  | transport (msg : String)
  /-- `requests.HTTPError` raised by `response.raise_for_status()`. -/
  | httpError (status : Nat)
  deriving DecidableEq

/-- Error-level log entries emitted through `_logger.error`. -/
inductive LogEntry where
  /-- "Unable to write file %s: %s" -/
  | writeError (fileName : String) (msg : String)
  /-- "Unable to save %s due to %s (status %s)" -/
  | apiError (fileName : String) (reason : String) (status : Nat)
  deriving DecidableEq

/-- The outgoing POST request: `files` maps part names to the path of the
opened file handle attached there; `data` is the form-data dict. -/
structure Request where
  files : List (String × String)
  data : List (String × FormValue)
  apiKey : String
  deriving DecidableEq

/-- Observable effects of one call. `opened`/`closed` record the file paths
whose handles the call opened and closed. -/
structure Trace where
  netCalls : List Request
  log : List LogEntry
  written : List (String × List Nat)
  opened : List String
  closed : List String
  deriving DecidableEq

def Trace.empty : Trace := ⟨[], [], [], [], []⟩

/-- Outcome of `session.post`: either the call itself raises, or it yields a
response. -/
inductive PostResult where
  | raised (msg : String)
  | response (r : Response)
  deriving DecidableEq

/-- Oracle for the external effects one call can encounter: whether opening
the primary/background file raises (`some msg`) or succeeds (`none`), what
the POST does, and whether the output-file write raises. -/
structure World where
  primaryOpenErr : Option String
  bgOpenErr : Option String
  post : PostResult
  writeErr : Option String
  deriving DecidableEq

/-- Result type of the three entry operations: bytes when `return_bytes`,
otherwise Python's implicit `None`. -/
abbrev RBResult := Except RBError (Option (List Nat))

/-- The keyword parameters shared by the three entry operations, with the
Python default values. -/
structure Options where
  size : String := "regular"
  type_ : String := "auto"
  type_level : String := "none"
  format_ : String := "auto"
  roi : String := "0 0 100% 100%"
  crop : Option String := none
  scale : String := "original"
  position : String := "original"
  channels : String := "rgba"
  shadow : Bool := false
  semitransparency : Bool := true
  bg : Option String := none
  bg_type : Option String := none
  new_file_name : Option String := some "no-bg.png"
  return_bytes : Bool := false
  deriving DecidableEq

def sizeValues : List String :=
  ["auto", "preview", "small", "regular", "medium", "hd", "full", "4k"]

def typeValues : List String :=
  ["auto", "person", "product", "animal", "car", "car_interior", "car_part",
   "transportation", "graphics", "other"]

def typeLevelValues : List String := ["none", "latest", "1", "2"]

def formatValues : List String := ["jpg", "zip", "png", "auto"]

def channelsValues : List String := ["rgba", "alpha"]

/-- `RemoveBg._check_arguments` (removebg.py lines 49-65): returns the raised
`ValueError`, or `none` when all five arguments are in their enumerations. -/
def check_arguments (size type_ type_level format_ channels : String) :
    Option RBError :=
  if size ∉ sizeValues then some (.invalidArgument "size argument wrong")
  else if type_ ∉ typeValues then some (.invalidArgument "type argument wrong")
  else if type_level ∉ typeLevelValues then
    some (.invalidArgument "type_level argument wrong")
  else if format_ ∉ formatValues then
    some (.invalidArgument "format argument wrong")
  else if channels ∉ channelsValues then
    some (.invalidArgument "channels argument wrong")
  else none

/-- Python `str.lower` on the character list (structurally recursive so that
concrete instances evaluate). -/
def strLower (s : String) : String := ⟨s.data.map Char.toLower⟩

/-- The reason string computed in the error branch of `_output_file`
(lines 76-85): start from `"unknown error"`, and when the body is a dict
with a truthy `"errors"` list, replace it by
`payload["errors"][0].get("title", error_reason).lower()`. -/
def errorReasonOfBody : RespBody → String
  | .jsonErrors first _ => strLower (first.title.getD "unknown error")
  | _ => "unknown error"

/-- Files written / log entries emitted by `_output_file`. -/
structure OutputResult where
  written : List (String × List Nat)
  log : List LogEntry
  deriving DecidableEq

/-- `RemoveBg._output_file` (lines 67-88).  `requests.codes.ok` is exactly
`200`.  On `200` the content is written to `new_file_name`; a write failure
(`writeErr = some ex`) is caught and logged.  On any other status the error
reason and status code are logged.  The function never raises. -/
def output_file (response : Response) (new_file_name : String)
    (writeErr : Option String) : OutputResult :=
  if response.status_code == 200 then
    match writeErr with
    | none => ⟨[(new_file_name, response.content)], []⟩
    | some ex => ⟨[], [.writeError new_file_name ex]⟩
  else
    ⟨[], [.apiError new_file_name (errorReasonOfBody response.body)
            response.status_code]⟩

/-- `RemoveBg._build_common_data` (lines 90-108): the form-data dict shared
by all request types. -/
def build_common_data (size type_ type_level format_ roi : String)
    (crop : Option String) (scale position channels : String)
    (shadow semitransparency : Bool) : List (String × FormValue) :=
  [("size", .str size),
   ("type", .str type_),
   ("type_level", .str type_level),
   ("format", .str format_),
   ("roi", .str roi),
   ("crop", .str (if strTruthy crop then "true" else "false")),
   ("crop_margin", match crop with | none => FormValue.noneVal
                                   | some s => FormValue.str s),
   ("scale", .str scale),
   ("position", .str position),
   ("channels", .str channels),
   ("add_shadow", .str (if shadow then "true" else "false")),
   ("semitransparency", .str (if semitransparency then "true" else "false"))]

/-- First value stored under `key` in a form-data dict. -/
def getField (data : List (String × FormValue)) (key : String) :
    Option FormValue :=
  (data.find? (fun p => p.1 == key)).map (fun p => p.2)

/-- The POST plus response handling shared verbatim by the three entry
operations (e.g. lines 163-176): issue the request, `raise_for_status`
(raises `HTTPError` exactly when `400 <= status < 600`), then on
`return_bytes` save (if a truthy file name was given) and return the
content, else save (if a truthy file name was given) and return `None`. -/
def handleResponse (r : Response) (new_file_name : Option String)
    (return_bytes : Bool) (writeErr : Option String) :
    RBResult × OutputResult :=
  if 400 ≤ r.status_code ∧ r.status_code < 600 then
    (.error (.httpError r.status_code), ⟨[], []⟩)
  else
    let out := if strTruthy new_file_name then
        output_file r (new_file_name.getD "") writeErr
      else ⟨[], []⟩
    if return_bytes then (.ok (some r.content), out)
    else (.ok none, out)

/-- The POST itself: the request is recorded in the trace whether or not the
transport raises; `bgOpened` is the background handle (if any), closed by the
`finally` block on every exit. -/
def doPost (apiKey : String) (files : List (String × String))
    (data : List (String × FormValue)) (o : Options) (w : World)
    (bgOpened : List String) : RBResult × Trace :=
  let req : Request := ⟨files, data, apiKey⟩
  match w.post with
  | .raised msg =>
      (.error (.transport msg),
       { netCalls := [req], log := [], written := [],
         opened := bgOpened, closed := bgOpened })
  | .response r =>
      let hr := handleResponse r o.new_file_name o.return_bytes w.writeErr
      (hr.1,
       { netCalls := [req], log := hr.2.log, written := hr.2.written,
         opened := bgOpened, closed := bgOpened })

/-- The background-attachment block shared verbatim by the three entry
operations (e.g. lines 155-161), followed by the POST.  When
`bg_type == 'path' and bg`, `open(bg, 'rb')` may raise, in which case the
error propagates and the `finally` block is a no-op (the handle was never
assigned). -/
def sendAndHandle (apiKey : String) (files0 : List (String × String))
    (data0 : List (String × FormValue)) (o : Options) (w : World) :
    RBResult × Trace :=
  if o.bg_type == some "path" && strTruthy o.bg then
    match w.bgOpenErr with
    | some msg => (.error (.ioError msg), Trace.empty)
    | none =>
        let bgPath := o.bg.getD ""
        doPost apiKey (files0 ++ [("bg_image_file", bgPath)]) data0 o w
          [bgPath]
  else if o.bg_type == some "color" && strTruthy o.bg then
    doPost apiKey files0 (data0 ++ [("bg_color", .str (o.bg.getD ""))]) o w []
  else if o.bg_type == some "url" && strTruthy o.bg then
    doPost apiKey files0 (data0 ++ [("bg_image_url", .str (o.bg.getD ""))])
      o w []
  else
    doPost apiKey files0 data0 o w []

/-- `RemoveBg.remove_background_from_img_file` (lines 110-182): validate the
five enumerated arguments, open the primary image file (a raised `OSError`
propagates), attach it as `image_file`, build the common data, attach the
background, POST and handle the response.  The `with` block closes the
primary handle on every exit; the `finally` block closes the background
handle on every exit. -/
def remove_background_from_img_file (apiKey img_file_path : String)
    (o : Options) (w : World) : RBResult × Trace :=
  match check_arguments o.size o.type_ o.type_level o.format_ o.channels with
  | some e => (.error e, Trace.empty)
  | none =>
    match w.primaryOpenErr with
    | some msg => (.error (.ioError msg), Trace.empty)
    | none =>
      let data0 := build_common_data o.size o.type_ o.type_level o.format_
        o.roi o.crop o.scale o.position o.channels o.shadow
        o.semitransparency
      let st := sendAndHandle apiKey [("image_file", img_file_path)] data0 o w
      (st.1, { st.2 with opened := img_file_path :: st.2.opened,
                         closed := img_file_path :: st.2.closed })

/-- `RemoveBg.remove_background_from_img_url` (lines 184-258): validate the
enumerated arguments, require a consumption mode (`new_file_name is None`
and `return_bytes` false raises `ValueError`), set `image_url` in the data,
attach the background, POST and handle the response. -/
def remove_background_from_img_url (apiKey img_url : String)
    (o : Options) (w : World) : RBResult × Trace :=
  match check_arguments o.size o.type_ o.type_level o.format_ o.channels with
  | some e => (.error e, Trace.empty)
  | none =>
    if !o.return_bytes && o.new_file_name == none then
      (.error (.invalidArgument
        "Either provide new_file_name or set return_bytes=True"), Trace.empty)
    else
      let data0 := build_common_data o.size o.type_ o.type_level o.format_
        o.roi o.crop o.scale o.position o.channels o.shadow
        o.semitransparency
      sendAndHandle apiKey [] (data0 ++ [("image_url", .str img_url)]) o w

/-- `RemoveBg.remove_background_from_base64_img` (lines 260-333): identical
to the URL variant with `image_file_b64` as the source field. -/
def remove_background_from_base64_img (apiKey base64_img : String)
    (o : Options) (w : World) : RBResult × Trace :=
  match check_arguments o.size o.type_ o.type_level o.format_ o.channels with
  | some e => (.error e, Trace.empty)
  | none =>
    if !o.return_bytes && o.new_file_name == none then
      (.error (.invalidArgument
        "Either provide new_file_name or set return_bytes=True"), Trace.empty)
    else
      let data0 := build_common_data o.size o.type_ o.type_level o.format_
        o.roi o.crop o.scale o.position o.channels o.shadow
        o.semitransparency
      sendAndHandle apiKey []
        (data0 ++ [("image_file_b64", .str base64_img)]) o w

/-- Classifier for `ValueError` outcomes. -/
def isInvalidArgument : RBResult → Bool
  | .error (.invalidArgument _) => true
  | _ => false

/-- Number of background fields present in an outgoing request. -/
def bgFieldCount (req : Request) : Nat :=
  (if (req.files.find? (fun p => p.1 == "bg_image_file")).isSome
     then 1 else 0) +
  (if (getField req.data "bg_color").isSome then 1 else 0) +
  (if (getField req.data "bg_image_url").isSome then 1 else 0)

/-- A background is specified when `bg_type` is one of the three recognised
kinds and `bg` is truthy. -/
def bgSpecified (o : Options) : Prop :=
  (o.bg_type = some "path" ∨ o.bg_type = some "color" ∨
    o.bg_type = some "url") ∧ strTruthy o.bg = true

instance (o : Options) : Decidable (bgSpecified o) := by
  unfold bgSpecified; infer_instance

/-- What a call does once it reaches the response-handling phase with a
non-2xx response: statuses in `[400, 600)` raise `HTTPError` with nothing
logged or written; other non-2xx statuses return normally, write nothing,
and (when a truthy file name was given) log the file name, the extracted
reason and the status code. -/
def nonOkBehavior (o : Options) (r : Response) (res : RBResult × Trace) :
    Prop :=
  (400 ≤ r.status_code ∧ r.status_code < 600 →
     res.1 = .error (.httpError r.status_code) ∧ res.2.log = [] ∧
     res.2.written = []) ∧
  (¬(400 ≤ r.status_code ∧ r.status_code < 600) →
     (∃ v, res.1 = Except.ok v) ∧ res.2.written = [] ∧
     (strTruthy o.new_file_name = true →
        res.2.log = [.apiError (o.new_file_name.getD "")
          (errorReasonOfBody r.body) r.status_code]))

/-- What a call does once it reaches the response-handling phase with a 2xx
response: the content is returned when `return_bytes`; the bytes are written
verbatim exactly when the status is `200` (a 2xx status other than `200` is
treated as an error by `_output_file`); a write failure is caught and
logged. -/
def successBehavior (o : Options) (w : World) (r : Response)
    (res : RBResult × Trace) : Prop :=
  (o.return_bytes = true → res.1 = .ok (some r.content)) ∧
  (o.return_bytes = false → res.1 = .ok none) ∧
  (r.status_code = 200 → strTruthy o.new_file_name = true →
     w.writeErr = none →
     res.2.written = [(o.new_file_name.getD "", r.content)] ∧
     res.2.log = []) ∧
  (r.status_code = 200 → strTruthy o.new_file_name = true →
     ∀ ex, w.writeErr = some ex →
     res.2.written = [] ∧
     res.2.log = [.writeError (o.new_file_name.getD "") ex]) ∧
  (r.status_code ≠ 200 → res.2.written = [])

/-- The conjunction of the five enumeration memberships that
`_check_arguments` enforces. -/
def validEnums (o : Options) : Prop :=
  o.size ∈ sizeValues ∧ o.type_ ∈ typeValues ∧
  o.type_level ∈ typeLevelValues ∧ o.format_ ∈ formatValues ∧
  o.channels ∈ channelsValues

instance (o : Options) : Decidable (validEnums o) := by
  unfold validEnums; infer_instance

/-- The common form data built from an option record. -/
def commonData (o : Options) : List (String × FormValue) :=
  build_common_data o.size o.type_ o.type_level o.format_ o.roi o.crop
    o.scale o.position o.channels o.shadow o.semitransparency

/-! ## Helper lemmas -/

theorem check_arguments_eq_none_iff (s t tl f c : String) :
    check_arguments s t tl f c = none ↔
      (s ∈ sizeValues ∧ t ∈ typeValues ∧ tl ∈ typeLevelValues ∧
       f ∈ formatValues ∧ c ∈ channelsValues) := by
  unfold check_arguments
  split_ifs <;> simp_all

theorem check_arguments_not_valid (s t tl f c : String)
    (h : ¬(s ∈ sizeValues ∧ t ∈ typeValues ∧ tl ∈ typeLevelValues ∧
      f ∈ formatValues ∧ c ∈ channelsValues)) :
    ∃ m, check_arguments s t tl f c = some (.invalidArgument m) := by
  have hne : check_arguments s t tl f c ≠ none := fun hc =>
    h ((check_arguments_eq_none_iff s t tl f c).mp hc)
  unfold check_arguments at hne ⊢
  split_ifs at hne ⊢ <;> simp_all

theorem handleResponse_raise (r : Response) (n : Option String) (rb : Bool)
    (we : Option String) (h : 400 ≤ r.status_code ∧ r.status_code < 600) :
    handleResponse r n rb we =
      (.error (.httpError r.status_code), ⟨[], []⟩) := by
  unfold handleResponse
  rw [if_pos h]

theorem handleResponse_no_raise (r : Response) (n : Option String) (rb : Bool)
    (we : Option String) (h : ¬(400 ≤ r.status_code ∧ r.status_code < 600)) :
    handleResponse r n rb we =
      ((if rb then Except.ok (some r.content) else Except.ok none),
       if strTruthy n then output_file r (n.getD "") we else ⟨[], []⟩) := by
  unfold handleResponse
  rw [if_neg h]
  cases rb <;> rfl

theorem output_file_err (r : Response) (name : String) (we : Option String)
    (h : r.status_code ≠ 200) :
    output_file r name we =
      ⟨[], [.apiError name (errorReasonOfBody r.body) r.status_code]⟩ := by
  unfold output_file
  rw [if_neg (by simpa using h)]

theorem output_file_ok_write (r : Response) (name : String)
    (h : r.status_code = 200) :
    output_file r name none = ⟨[(name, r.content)], []⟩ := by
  unfold output_file
  rw [if_pos (by simpa using h)]

theorem output_file_ok_writeFail (r : Response) (name ex : String)
    (h : r.status_code = 200) :
    output_file r name (some ex) = ⟨[], [.writeError name ex]⟩ := by
  unfold output_file
  rw [if_pos (by simpa using h)]

theorem doPost_response_eq (k : String) (fs : List (String × String))
    (d : List (String × FormValue)) (o : Options) (w : World)
    (bg : List String) (r : Response) (hpost : w.post = .response r) :
    doPost k fs d o w bg =
      ((handleResponse r o.new_file_name o.return_bytes w.writeErr).1,
       ⟨[⟨fs, d, k⟩],
        (handleResponse r o.new_file_name o.return_bytes w.writeErr).2.log,
        (handleResponse r o.new_file_name o.return_bytes w.writeErr).2.written,
        bg, bg⟩) := by
  unfold doPost
  rw [hpost]

theorem doPost_raised_eq (k : String) (fs : List (String × String))
    (d : List (String × FormValue)) (o : Options) (w : World)
    (bg : List String) (m : String) (hpost : w.post = .raised m) :
    doPost k fs d o w bg =
      (.error (.transport m), ⟨[⟨fs, d, k⟩], [], [], bg, bg⟩) := by
  unfold doPost
  rw [hpost]

theorem doPost_closed_eq_opened (k : String) (fs : List (String × String))
    (d : List (String × FormValue)) (o : Options) (w : World)
    (bg : List String) :
    (doPost k fs d o w bg).2.closed = (doPost k fs d o w bg).2.opened := by
  unfold doPost
  cases w.post <;> rfl

theorem doPost_netCalls (k : String) (fs : List (String × String))
    (d : List (String × FormValue)) (o : Options) (w : World)
    (bg : List String) :
    (doPost k fs d o w bg).2.netCalls = [⟨fs, d, k⟩] := by
  unfold doPost
  cases w.post <;> rfl

theorem handleResponse_not_invalid (r : Response) (n : Option String)
    (rb : Bool) (we : Option String) :
    isInvalidArgument (handleResponse r n rb we).1 = false := by
  unfold handleResponse
  split
  · rfl
  · cases rb <;> rfl

theorem doPost_not_invalid (k : String) (fs : List (String × String))
    (d : List (String × FormValue)) (o : Options) (w : World)
    (bg : List String) :
    isInvalidArgument (doPost k fs d o w bg).1 = false := by
  unfold doPost
  cases h : w.post with
  | raised m => rfl
  | response r => apply handleResponse_not_invalid

theorem sendAndHandle_closed_eq_opened (k : String)
    (fs : List (String × String)) (d : List (String × FormValue))
    (o : Options) (w : World) :
    (sendAndHandle k fs d o w).2.closed =
      (sendAndHandle k fs d o w).2.opened := by
  unfold sendAndHandle
  split
  · split
    · rfl
    · apply doPost_closed_eq_opened
  · split
    · apply doPost_closed_eq_opened
    · split
      · apply doPost_closed_eq_opened
      · apply doPost_closed_eq_opened

theorem sendAndHandle_not_invalid (k : String) (fs : List (String × String))
    (d : List (String × FormValue)) (o : Options) (w : World) :
    isInvalidArgument (sendAndHandle k fs d o w).1 = false := by
  unfold sendAndHandle
  split
  · split
    · rfl
    · apply doPost_not_invalid
  · split
    · apply doPost_not_invalid
    · split
      · apply doPost_not_invalid
      · apply doPost_not_invalid

theorem sendAndHandle_bgOpen_ok (k : String) (fs : List (String × String))
    (d : List (String × FormValue)) (o : Options) (w : World)
    (hbgopen : w.bgOpenErr = none) :
    (o.bg_type = some "path" ∧ strTruthy o.bg = true ∧
       sendAndHandle k fs d o w =
         doPost k (fs ++ [("bg_image_file", o.bg.getD "")]) d o w
           [o.bg.getD ""]) ∨
    (o.bg_type = some "color" ∧ strTruthy o.bg = true ∧
       sendAndHandle k fs d o w =
         doPost k fs (d ++ [("bg_color", .str (o.bg.getD ""))]) o w []) ∨
    (o.bg_type = some "url" ∧ strTruthy o.bg = true ∧
       sendAndHandle k fs d o w =
         doPost k fs (d ++ [("bg_image_url", .str (o.bg.getD ""))]) o w []) ∨
    (¬ bgSpecified o ∧ sendAndHandle k fs d o w = doPost k fs d o w []) := by
  unfold sendAndHandle
  by_cases h1 : (o.bg_type == some "path" && strTruthy o.bg) = true
  · obtain ⟨ht, hb⟩ := Bool.and_eq_true_iff.mp h1
    refine Or.inl ⟨beq_iff_eq.mp ht, hb, ?_⟩
    rw [if_pos h1, hbgopen]
  · rw [if_neg h1]
    by_cases h2 : (o.bg_type == some "color" && strTruthy o.bg) = true
    · obtain ⟨ht, hb⟩ := Bool.and_eq_true_iff.mp h2
      exact Or.inr (Or.inl ⟨beq_iff_eq.mp ht, hb, by rw [if_pos h2]⟩)
    · rw [if_neg h2]
      by_cases h3 : (o.bg_type == some "url" && strTruthy o.bg) = true
      · obtain ⟨ht, hb⟩ := Bool.and_eq_true_iff.mp h3
        exact Or.inr (Or.inr (Or.inl ⟨beq_iff_eq.mp ht, hb,
          by rw [if_pos h3]⟩))
      · refine Or.inr (Or.inr (Or.inr ⟨?_, by rw [if_neg h3]⟩))
        rintro ⟨htype, hb⟩
        rcases htype with ht | ht | ht
        · exact h1 (by simp [ht, hb])
        · exact h2 (by simp [ht, hb])
        · exact h3 (by simp [ht, hb])

theorem not_bgSpecified_guards (o : Options) (hbg : ¬ bgSpecified o) :
    (o.bg_type == some "path" && strTruthy o.bg) = false ∧
    (o.bg_type == some "color" && strTruthy o.bg) = false ∧
    (o.bg_type == some "url" && strTruthy o.bg) = false := by
  refine ⟨?_, ?_, ?_⟩ <;>
  · rw [Bool.eq_false_iff]
    intro h
    obtain ⟨ht, hb⟩ := Bool.and_eq_true_iff.mp h
    exact hbg ⟨by simp [beq_iff_eq.mp ht], hb⟩

theorem sendAndHandle_no_bg (k : String) (fs : List (String × String))
    (d : List (String × FormValue)) (o : Options) (w : World)
    (hbg : ¬ bgSpecified o) :
    sendAndHandle k fs d o w = doPost k fs d o w [] := by
  obtain ⟨g1, g2, g3⟩ := not_bgSpecified_guards o hbg
  unfold sendAndHandle
  rw [g1, g2, g3]
  simp

theorem sendAndHandle_path_some (k : String) (fs : List (String × String))
    (d : List (String × FormValue)) (o : Options) (w : World) (msg : String)
    (h1 : (o.bg_type == some "path" && strTruthy o.bg) = true)
    (hbg : w.bgOpenErr = some msg) :
    sendAndHandle k fs d o w = (.error (.ioError msg), Trace.empty) := by
  unfold sendAndHandle
  rw [if_pos h1, hbg]

theorem sendAndHandle_path_none (k : String) (fs : List (String × String))
    (d : List (String × FormValue)) (o : Options) (w : World)
    (h1 : (o.bg_type == some "path" && strTruthy o.bg) = true)
    (hbg : w.bgOpenErr = none) :
    sendAndHandle k fs d o w =
      doPost k (fs ++ [("bg_image_file", o.bg.getD "")]) d o w
        [o.bg.getD ""] := by
  unfold sendAndHandle
  rw [if_pos h1, hbg]

theorem sendAndHandle_color_eq (k : String) (fs : List (String × String))
    (d : List (String × FormValue)) (o : Options) (w : World)
    (h1 : (o.bg_type == some "path" && strTruthy o.bg) = false)
    (h2 : (o.bg_type == some "color" && strTruthy o.bg) = true) :
    sendAndHandle k fs d o w =
      doPost k fs (d ++ [("bg_color", .str (o.bg.getD ""))]) o w [] := by
  unfold sendAndHandle
  rw [if_neg (by simp [h1]), if_pos h2]

theorem sendAndHandle_url_eq (k : String) (fs : List (String × String))
    (d : List (String × FormValue)) (o : Options) (w : World)
    (h1 : (o.bg_type == some "path" && strTruthy o.bg) = false)
    (h2 : (o.bg_type == some "color" && strTruthy o.bg) = false)
    (h3 : (o.bg_type == some "url" && strTruthy o.bg) = true) :
    sendAndHandle k fs d o w =
      doPost k fs (d ++ [("bg_image_url", .str (o.bg.getD ""))]) o w [] := by
  unfold sendAndHandle
  rw [if_neg (by simp [h1]), if_neg (by simp [h2]), if_pos h3]

theorem sendAndHandle_nobg_eq (k : String) (fs : List (String × String))
    (d : List (String × FormValue)) (o : Options) (w : World)
    (h1 : (o.bg_type == some "path" && strTruthy o.bg) = false)
    (h2 : (o.bg_type == some "color" && strTruthy o.bg) = false)
    (h3 : (o.bg_type == some "url" && strTruthy o.bg) = false) :
    sendAndHandle k fs d o w = doPost k fs d o w [] := by
  unfold sendAndHandle
  rw [if_neg (by simp [h1]), if_neg (by simp [h2]), if_neg (by simp [h3])]

theorem sendAndHandle_cases (k : String) (fs : List (String × String))
    (d : List (String × FormValue)) (o : Options) (w : World) :
    ((sendAndHandle k fs d o w).2.netCalls = []) ∨
    (o.bg_type = some "path" ∧ strTruthy o.bg = true ∧
       sendAndHandle k fs d o w =
         doPost k (fs ++ [("bg_image_file", o.bg.getD "")]) d o w
           [o.bg.getD ""]) ∨
    (o.bg_type = some "color" ∧ strTruthy o.bg = true ∧
       sendAndHandle k fs d o w =
         doPost k fs (d ++ [("bg_color", .str (o.bg.getD ""))]) o w []) ∨
    (o.bg_type = some "url" ∧ strTruthy o.bg = true ∧
       sendAndHandle k fs d o w =
         doPost k fs (d ++ [("bg_image_url", .str (o.bg.getD ""))]) o w []) ∨
    (¬ bgSpecified o ∧ sendAndHandle k fs d o w = doPost k fs d o w []) := by
  by_cases h1 : (o.bg_type == some "path" && strTruthy o.bg) = true
  · obtain ⟨ht, hb⟩ := Bool.and_eq_true_iff.mp h1
    cases hbg : w.bgOpenErr with
    | some msg =>
        refine Or.inl ?_
        rw [sendAndHandle_path_some k fs d o w msg h1 hbg]
        rfl
    | none =>
        exact Or.inr (Or.inl ⟨beq_iff_eq.mp ht, hb,
          sendAndHandle_path_none k fs d o w h1 hbg⟩)
  · have h1' : (o.bg_type == some "path" && strTruthy o.bg) = false :=
      Bool.eq_false_iff.mpr h1
    by_cases h2 : (o.bg_type == some "color" && strTruthy o.bg) = true
    · obtain ⟨ht, hb⟩ := Bool.and_eq_true_iff.mp h2
      exact Or.inr (Or.inr (Or.inl ⟨beq_iff_eq.mp ht, hb,
        sendAndHandle_color_eq k fs d o w h1' h2⟩))
    · have h2' : (o.bg_type == some "color" && strTruthy o.bg) = false :=
        Bool.eq_false_iff.mpr h2
      by_cases h3 : (o.bg_type == some "url" && strTruthy o.bg) = true
      · obtain ⟨ht, hb⟩ := Bool.and_eq_true_iff.mp h3
        exact Or.inr (Or.inr (Or.inr (Or.inl ⟨beq_iff_eq.mp ht, hb,
          sendAndHandle_url_eq k fs d o w h1' h2' h3⟩)))
      · have h3' : (o.bg_type == some "url" && strTruthy o.bg) = false :=
          Bool.eq_false_iff.mpr h3
        refine Or.inr (Or.inr (Or.inr (Or.inr ⟨?_,
          sendAndHandle_nobg_eq k fs d o w h1' h2' h3'⟩)))
        rintro ⟨htype, hb⟩
        rcases htype with ht | ht | ht
        · exact h1 (by simp [ht, hb])
        · exact h2 (by simp [ht, hb])
        · exact h3 (by simp [ht, hb])

theorem mode_guard_false (o : Options)
    (hmode : o.return_bytes = true ∨ o.new_file_name ≠ none) :
    (!o.return_bytes && (o.new_file_name == none)) = false := by
  rcases hmode with h | h
  · rw [h]
    rfl
  · cases hnf : o.new_file_name with
    | none => exact absurd hnf h
    | some v => simp

theorem img_file_args_err (k p : String) (o : Options) (w : World)
    (e : RBError)
    (hargs : check_arguments o.size o.type_ o.type_level o.format_
      o.channels = some e) :
    remove_background_from_img_file k p o w = (.error e, Trace.empty) := by
  unfold remove_background_from_img_file
  rw [hargs]

theorem img_url_args_err (k u : String) (o : Options) (w : World)
    (e : RBError)
    (hargs : check_arguments o.size o.type_ o.type_level o.format_
      o.channels = some e) :
    remove_background_from_img_url k u o w = (.error e, Trace.empty) := by
  unfold remove_background_from_img_url
  rw [hargs]

theorem b64_args_err (k b : String) (o : Options) (w : World)
    (e : RBError)
    (hargs : check_arguments o.size o.type_ o.type_level o.format_
      o.channels = some e) :
    remove_background_from_base64_img k b o w = (.error e, Trace.empty) := by
  unfold remove_background_from_base64_img
  rw [hargs]

theorem img_file_open_err (k p : String) (o : Options) (w : World)
    (m : String)
    (hargs : check_arguments o.size o.type_ o.type_level o.format_
      o.channels = none)
    (hopen : w.primaryOpenErr = some m) :
    remove_background_from_img_file k p o w =
      (.error (.ioError m), Trace.empty) := by
  unfold remove_background_from_img_file
  rw [hargs, hopen]

theorem img_file_run (k p : String) (o : Options) (w : World)
    (hargs : check_arguments o.size o.type_ o.type_level o.format_
      o.channels = none)
    (hopen : w.primaryOpenErr = none) :
    remove_background_from_img_file k p o w =
      ((sendAndHandle k [("image_file", p)] (commonData o) o w).1,
       { (sendAndHandle k [("image_file", p)] (commonData o) o w).2 with
         opened := p ::
           (sendAndHandle k [("image_file", p)] (commonData o) o w).2.opened,
         closed := p ::
           (sendAndHandle k [("image_file", p)] (commonData o) o w).2.closed
       }) := by
  unfold remove_background_from_img_file
  rw [hargs, hopen]
  rfl

theorem img_url_mode_err (k u : String) (o : Options) (w : World)
    (hargs : check_arguments o.size o.type_ o.type_level o.format_
      o.channels = none)
    (hn : o.new_file_name = none) (hr : o.return_bytes = false) :
    remove_background_from_img_url k u o w =
      (.error (.invalidArgument
        "Either provide new_file_name or set return_bytes=True"),
       Trace.empty) := by
  unfold remove_background_from_img_url
  rw [hargs, hn, hr]
  rfl

theorem b64_mode_err (k b : String) (o : Options) (w : World)
    (hargs : check_arguments o.size o.type_ o.type_level o.format_
      o.channels = none)
    (hn : o.new_file_name = none) (hr : o.return_bytes = false) :
    remove_background_from_base64_img k b o w =
      (.error (.invalidArgument
        "Either provide new_file_name or set return_bytes=True"),
       Trace.empty) := by
  unfold remove_background_from_base64_img
  rw [hargs, hn, hr]
  rfl

theorem img_url_run (k u : String) (o : Options) (w : World)
    (hargs : check_arguments o.size o.type_ o.type_level o.format_
      o.channels = none)
    (hmode : o.return_bytes = true ∨ o.new_file_name ≠ none) :
    remove_background_from_img_url k u o w =
      sendAndHandle k [] (commonData o ++ [("image_url", .str u)]) o w := by
  unfold remove_background_from_img_url
  rw [hargs, mode_guard_false o hmode]
  rfl

theorem b64_run (k b : String) (o : Options) (w : World)
    (hargs : check_arguments o.size o.type_ o.type_level o.format_
      o.channels = none)
    (hmode : o.return_bytes = true ∨ o.new_file_name ≠ none) :
    remove_background_from_base64_img k b o w =
      sendAndHandle k [] (commonData o ++ [("image_file_b64", .str b)])
        o w := by
  unfold remove_background_from_base64_img
  rw [hargs, mode_guard_false o hmode]
  rfl

theorem sendAndHandle_response_fields (k : String)
    (fs : List (String × String)) (d : List (String × FormValue))
    (o : Options) (w : World) (r : Response)
    (hbgopen : w.bgOpenErr = none) (hpost : w.post = .response r) :
    (sendAndHandle k fs d o w).1 =
      (handleResponse r o.new_file_name o.return_bytes w.writeErr).1 ∧
    (sendAndHandle k fs d o w).2.netCalls.length = 1 ∧
    (sendAndHandle k fs d o w).2.log =
      (handleResponse r o.new_file_name o.return_bytes w.writeErr).2.log ∧
    (sendAndHandle k fs d o w).2.written =
      (handleResponse r o.new_file_name o.return_bytes w.writeErr).2.written
    := by
  rcases sendAndHandle_bgOpen_ok k fs d o w hbgopen with
    ⟨_, _, heq⟩ | ⟨_, _, heq⟩ | ⟨_, _, heq⟩ | ⟨_, heq⟩ <;>
  · rw [heq, doPost_response_eq k _ _ o w _ r hpost]
    exact ⟨rfl, rfl, rfl, rfl⟩

theorem check_arguments_some_invalid (s t tl f c : String) (e : RBError)
    (h : check_arguments s t tl f c = some e) :
    ∃ m, e = .invalidArgument m := by
  unfold check_arguments at h
  split_ifs at h <;> simp_all <;> exact ⟨_, h.symm⟩

/-! ## Claim theorems -/

/-- C4: In `_build_common_data`, the `add_shadow` and `semitransparency`
fields are exactly the literal string "true" when the corresponding flag is
truthy and exactly "false" otherwise (never native booleans); the `crop`
field is "true" exactly when a non-empty crop margin is supplied and
"false" otherwise; and the `crop_margin` field carries the supplied crop
value verbatim. -/
theorem C4_build_common_data_flags (size type_ type_level format_ roi :
      String) (crop : Option String) (scale position channels : String)
    (shadow semitransparency : Bool) :
    getField (build_common_data size type_ type_level format_ roi crop scale
        position channels shadow semitransparency) "add_shadow" =
      some (.str (if shadow then "true" else "false")) ∧
    getField (build_common_data size type_ type_level format_ roi crop scale
        position channels shadow semitransparency) "semitransparency" =
      some (.str (if semitransparency then "true" else "false")) ∧
    (getField (build_common_data size type_ type_level format_ roi crop scale
        position channels shadow semitransparency) "crop" =
        some (.str "true") ↔ strTruthy crop = true) ∧
    (strTruthy crop = false →
      getField (build_common_data size type_ type_level format_ roi crop scale
        position channels shadow semitransparency) "crop" =
        some (.str "false")) ∧
    getField (build_common_data size type_ type_level format_ roi crop scale
        position channels shadow semitransparency) "crop_margin" =
      some (match crop with | none => FormValue.noneVal
                            | some s => FormValue.str s) := by
  have hcrop : getField (build_common_data size type_ type_level format_ roi
      crop scale position channels shadow semitransparency) "crop" =
      some (.str (if strTruthy crop then "true" else "false")) := rfl
  refine ⟨rfl, rfl, ?_, ?_, rfl⟩
  · rw [hcrop]
    cases hc : strTruthy crop <;> simp
  · intro hc
    rw [hcrop, hc]
    rfl

/-- C4 witness: with a non-empty crop margin supplied, the `crop` field is
the literal string "true". -/
theorem C4_build_common_data_flags_witness :
    getField (build_common_data "regular" "auto" "none" "auto" "r"
      (some "10px") "original" "original" "rgba" true false) "crop" =
      some (.str "true") := by
  have h := C4_build_common_data_flags "regular" "auto" "none" "auto" "r"
    (some "10px") "original" "original" "rgba" true false
  exact h.2.2.1.mpr (by decide)

/-- C6: For every non-2xx response handled by `_output_file`, nothing is
written, and the destination file name, the extracted reason and the numeric
status code are logged; the reason is the first error title lower-cased when
the body has the errors shape with a title, and exactly "unknown error" when
the body is not JSON, is JSON without the shape, or lacks a title. -/
theorem C6_error_body_extraction (r : Response) (name : String)
    (we : Option String) (h : ¬(200 ≤ r.status_code ∧ r.status_code < 300)) :
    output_file r name we =
      ⟨[], [.apiError name (errorReasonOfBody r.body) r.status_code]⟩ ∧
    (∀ t rest, r.body = .jsonErrors ⟨some t⟩ rest →
       errorReasonOfBody r.body = strLower t) ∧
    (∀ rest, r.body = .jsonErrors ⟨none⟩ rest →
       errorReasonOfBody r.body = "unknown error") ∧
    ((r.body = .notJson ∨ r.body = .jsonNoErrors) →
       errorReasonOfBody r.body = "unknown error") := by
  have h200 : r.status_code ≠ 200 := fun hs => h (by omega)
  refine ⟨output_file_err r name we h200, ?_, ?_, ?_⟩
  · rintro t rest hb
    rw [hb]
    rfl
  · rintro rest hb
    rw [hb]
    show strLower "unknown error" = "unknown error"
    decide
  · rintro (hb | hb) <;> (rw [hb]; rfl)

/-- C6 witness: a 400 response with body `{"errors":[{"title":"Foo Bar"}]}`
logs the file name, the reason "foo bar" and the status 400, writing
nothing. -/
theorem C6_error_body_extraction_witness :
    output_file ⟨400, [], .jsonErrors ⟨some "Foo Bar"⟩ []⟩ "out.png" none =
      ⟨[], [.apiError "out.png" "foo bar" 400]⟩ := by
  have h := C6_error_body_extraction ⟨400, [], .jsonErrors ⟨some "Foo Bar"⟩ []⟩
    "out.png" none (by decide)
  rw [h.1]
  rfl

/-- C8: In every call to any of the three entry operations, on every exit
path, the set of file handles closed equals the set opened: the primary
image handle (file variant) and the background handle (bg_type "path") are
both closed, the latter independently of the former. -/
theorem C8_handles_closed (key src : String) (o : Options) (w : World) :
    (remove_background_from_img_file key src o w).2.closed =
      (remove_background_from_img_file key src o w).2.opened ∧
    (remove_background_from_img_url key src o w).2.closed =
      (remove_background_from_img_url key src o w).2.opened ∧
    (remove_background_from_base64_img key src o w).2.closed =
      (remove_background_from_base64_img key src o w).2.opened := by
  refine ⟨?_, ?_, ?_⟩
  · cases hc : check_arguments o.size o.type_ o.type_level o.format_
        o.channels with
    | some e =>
        rw [img_file_args_err key src o w e hc]
        rfl
    | none =>
        cases ho : w.primaryOpenErr with
        | some m =>
            rw [img_file_open_err key src o w m hc ho]
            rfl
        | none =>
            rw [img_file_run key src o w hc ho]
            exact congrArg (List.cons src)
              (sendAndHandle_closed_eq_opened key _ _ o w)
  · cases hc : check_arguments o.size o.type_ o.type_level o.format_
        o.channels with
    | some e =>
        rw [img_url_args_err key src o w e hc]
        rfl
    | none =>
        cases hnf : o.new_file_name with
        | none =>
            cases hrb : o.return_bytes with
            | false =>
                rw [img_url_mode_err key src o w hc hnf hrb]
                rfl
            | true =>
                rw [img_url_run key src o w hc (Or.inl hrb)]
                exact sendAndHandle_closed_eq_opened key _ _ o w
        | some v =>
            rw [img_url_run key src o w hc (Or.inr (by simp [hnf]))]
            exact sendAndHandle_closed_eq_opened key _ _ o w
  · cases hc : check_arguments o.size o.type_ o.type_level o.format_
        o.channels with
    | some e =>
        rw [b64_args_err key src o w e hc]
        rfl
    | none =>
        cases hnf : o.new_file_name with
        | none =>
            cases hrb : o.return_bytes with
            | false =>
                rw [b64_mode_err key src o w hc hnf hrb]
                rfl
            | true =>
                rw [b64_run key src o w hc (Or.inl hrb)]
                exact sendAndHandle_closed_eq_opened key _ _ o w
        | some v =>
            rw [b64_run key src o w hc (Or.inr (by simp [hnf]))]
            exact sendAndHandle_closed_eq_opened key _ _ o w

/-- C2: For each of the three entry operations, any value of size, type,
type_level, format or channels outside its fixed enumeration makes the call
fail with a `ValueError` (`InvalidArgument`) before any network call is
attempted. -/
theorem C2_invalid_enum_fails_fast (key src : String) (o : Options)
    (w : World) (hbad : ¬ validEnums o) :
    (isInvalidArgument (remove_background_from_img_file key src o w).1 =
       true ∧
     (remove_background_from_img_file key src o w).2.netCalls = []) ∧
    (isInvalidArgument (remove_background_from_img_url key src o w).1 =
       true ∧
     (remove_background_from_img_url key src o w).2.netCalls = []) ∧
    (isInvalidArgument (remove_background_from_base64_img key src o w).1 =
       true ∧
     (remove_background_from_base64_img key src o w).2.netCalls = []) := by
  obtain ⟨m, hm⟩ := check_arguments_not_valid o.size o.type_ o.type_level
    o.format_ o.channels hbad
  rw [img_file_args_err key src o w _ hm, img_url_args_err key src o w _ hm,
    b64_args_err key src o w _ hm]
  exact ⟨⟨rfl, rfl⟩, ⟨rfl, rfl⟩, ⟨rfl, rfl⟩⟩

/-- C2 witness: size "bogus" raises InvalidArgument with no network call, in
a world whose POST would have failed loudly had it been reached. -/
theorem C2_invalid_enum_fails_fast_witness :
    isInvalidArgument (remove_background_from_img_file "k" "img.png"
      { size := "bogus" } ⟨none, none, .raised "boom", none⟩).1 = true ∧
    (remove_background_from_img_file "k" "img.png" { size := "bogus" }
      ⟨none, none, .raised "boom", none⟩).2.netCalls = [] :=
  (C2_invalid_enum_fails_fast "k" "img.png" { size := "bogus" }
    ⟨none, none, .raised "boom", none⟩ (by decide)).1

/-- C3: For the URL and base64 operations, a call with `new_file_name=None`
and `return_bytes=False` raises `InvalidArgument` before any network I/O,
while a call with at least one consumption mode set (and valid enumerations)
passes the check and raises no `InvalidArgument`. -/
theorem C3_consumption_mode_check (key src : String) (o : Options)
    (w : World) :
    (o.new_file_name = none → o.return_bytes = false →
       isInvalidArgument (remove_background_from_img_url key src o w).1 =
         true ∧
       (remove_background_from_img_url key src o w).2.netCalls = [] ∧
       isInvalidArgument (remove_background_from_base64_img key src o w).1 =
         true ∧
       (remove_background_from_base64_img key src o w).2.netCalls = []) ∧
    ((o.return_bytes = true ∨ o.new_file_name ≠ none) → validEnums o →
       isInvalidArgument (remove_background_from_img_url key src o w).1 =
         false ∧
       isInvalidArgument (remove_background_from_base64_img key src o w).1 =
         false) := by
  constructor
  · intro hn hr
    cases hc : check_arguments o.size o.type_ o.type_level o.format_
        o.channels with
    | some e =>
        obtain ⟨m, hm⟩ := check_arguments_some_invalid o.size o.type_
          o.type_level o.format_ o.channels e hc
        subst hm
        rw [img_url_args_err key src o w _ hc, b64_args_err key src o w _ hc]
        exact ⟨rfl, rfl, rfl, rfl⟩
    | none =>
        rw [img_url_mode_err key src o w hc hn hr,
          b64_mode_err key src o w hc hn hr]
        exact ⟨rfl, rfl, rfl, rfl⟩
  · intro hmode hvalid
    have hc : check_arguments o.size o.type_ o.type_level o.format_
        o.channels = none :=
      (check_arguments_eq_none_iff o.size o.type_ o.type_level o.format_
        o.channels).mpr hvalid
    rw [img_url_run key src o w hc hmode, b64_run key src o w hc hmode]
    exact ⟨sendAndHandle_not_invalid key _ _ o w,
      sendAndHandle_not_invalid key _ _ o w⟩

/-- C3 witness: with `new_file_name=None` and `return_bytes=False`, both the
URL and base64 operations raise InvalidArgument with zero network calls. -/
theorem C3_consumption_mode_check_witness :
    isInvalidArgument (remove_background_from_img_url "k" "src"
      { new_file_name := none } ⟨none, none, .raised "x", none⟩).1 = true ∧
    (remove_background_from_img_url "k" "src" { new_file_name := none }
      ⟨none, none, .raised "x", none⟩).2.netCalls = [] ∧
    isInvalidArgument (remove_background_from_base64_img "k" "src"
      { new_file_name := none } ⟨none, none, .raised "x", none⟩).1 = true ∧
    (remove_background_from_base64_img "k" "src" { new_file_name := none }
      ⟨none, none, .raised "x", none⟩).2.netCalls = [] :=
  (C3_consumption_mode_check "k" "src" { new_file_name := none }
    ⟨none, none, .raised "x", none⟩).1 rfl rfl

theorem handleResponse_none_false (r : Response) (we : Option String)
    (hok : ¬(400 ≤ r.status_code ∧ r.status_code < 600)) :
    handleResponse r none false we = (.ok none, ⟨[], []⟩) := by
  unfold handleResponse
  rw [if_neg hok]
  rfl

theorem doPost_options_congr (k : String) (fs : List (String × String))
    (d : List (String × FormValue)) (o o2 : Options) (w : World)
    (bg : List String) (hn : o.new_file_name = o2.new_file_name)
    (hr : o.return_bytes = o2.return_bytes) :
    doPost k fs d o w bg = doPost k fs d o2 w bg := by
  unfold doPost
  cases w.post with
  | raised m => rfl
  | response r => rw [hn, hr]

/-- C9: The file variant enforces no consumption-mode precondition: a call
with `new_file_name=None` and `return_bytes=False` (and valid enumerated
arguments) raises no InvalidArgument, still performs the network call, and
returns None with no output produced. -/
theorem C9_file_variant_no_consumption_check (key path : String)
    (o : Options) (w : World) (r : Response)
    (hn : o.new_file_name = none) (hr : o.return_bytes = false)
    (hvalid : validEnums o)
    (hopen : w.primaryOpenErr = none) (hbgopen : w.bgOpenErr = none)
    (hpost : w.post = .response r)
    (hok : ¬(400 ≤ r.status_code ∧ r.status_code < 600)) :
    (remove_background_from_img_file key path o w).1 = .ok none ∧
    (remove_background_from_img_file key path o w).2.netCalls.length = 1 ∧
    (remove_background_from_img_file key path o w).2.written = [] ∧
    (remove_background_from_img_file key path o w).2.log = [] := by
  have hc : check_arguments o.size o.type_ o.type_level o.format_
      o.channels = none :=
    (check_arguments_eq_none_iff o.size o.type_ o.type_level o.format_
      o.channels).mpr hvalid
  obtain ⟨h1, h2, h3, h4⟩ := sendAndHandle_response_fields key
    [("image_file", path)] (commonData o) o w r hbgopen hpost
  have hhr : handleResponse r o.new_file_name o.return_bytes w.writeErr =
      (.ok none, ⟨[], []⟩) := by
    rw [hn, hr]
    exact handleResponse_none_false r w.writeErr hok
  rw [img_file_run key path o w hc hopen]
  exact ⟨h1.trans (congrArg Prod.fst hhr), h2,
    h4.trans (congrArg (fun p => p.2.written) hhr),
    h3.trans (congrArg (fun p => p.2.log) hhr)⟩

/-- C9 witness: a concrete file-variant call with no consumption mode set
succeeds with one network call and no output. -/
theorem C9_file_variant_no_consumption_check_witness :
    (remove_background_from_img_file "k" "i.png" { new_file_name := none }
      ⟨none, none, .response ⟨200, [9], .notJson⟩, none⟩).1 = .ok none ∧
    (remove_background_from_img_file "k" "i.png" { new_file_name := none }
      ⟨none, none, .response ⟨200, [9], .notJson⟩,
        none⟩).2.netCalls.length = 1 ∧
    (remove_background_from_img_file "k" "i.png" { new_file_name := none }
      ⟨none, none, .response ⟨200, [9], .notJson⟩, none⟩).2.written = [] ∧
    (remove_background_from_img_file "k" "i.png" { new_file_name := none }
      ⟨none, none, .response ⟨200, [9], .notJson⟩, none⟩).2.log = [] :=
  C9_file_variant_no_consumption_check "k" "i.png" { new_file_name := none }
    ⟨none, none, .response ⟨200, [9], .notJson⟩, none⟩ ⟨200, [9], .notJson⟩
    rfl rfl (by decide) rfl rfl rfl (by decide)

/-- C10: With bg_type outside \x7bpath, url, color\x7d, or bg None or empty,
the background specification is silently ignored: each operation behaves
exactly as if no background had been given, no background field is added to
any outgoing request, and no error is raised because of the background. -/
theorem C10_background_silently_ignored (key src : String) (o : Options)
    (w : World) (hbg : ¬ bgSpecified o) :
    remove_background_from_img_file key src o w =
      remove_background_from_img_file key src
        { o with bg := none, bg_type := none } w ∧
    remove_background_from_img_url key src o w =
      remove_background_from_img_url key src
        { o with bg := none, bg_type := none } w ∧
    remove_background_from_base64_img key src o w =
      remove_background_from_base64_img key src
        { o with bg := none, bg_type := none } w := by
  have hbg2 : ¬ bgSpecified { o with bg := none, bg_type := none } := by
    rintro ⟨ht, hb⟩
    cases hb
  refine ⟨?_, ?_, ?_⟩
  · cases hc : check_arguments o.size o.type_ o.type_level o.format_
        o.channels with
    | some e =>
        rw [img_file_args_err key src o w e hc,
          img_file_args_err key src { o with bg := none, bg_type := none }
            w e hc]
    | none =>
        cases ho : w.primaryOpenErr with
        | some m =>
            rw [img_file_open_err key src o w m hc ho,
              img_file_open_err key src
                { o with bg := none, bg_type := none } w m hc ho]
        | none =>
            rw [img_file_run key src o w hc ho,
              img_file_run key src { o with bg := none, bg_type := none }
                w hc ho]
            have hS : sendAndHandle key [("image_file", src)]
                (commonData o) o w =
                sendAndHandle key [("image_file", src)]
                  (commonData { o with bg := none, bg_type := none })
                  { o with bg := none, bg_type := none } w := by
              rw [sendAndHandle_no_bg key _ _ o w hbg,
                sendAndHandle_no_bg key _ _ _ w hbg2]
              exact doPost_options_congr key _ _ o _ w [] rfl rfl
            rw [hS]
  · cases hc : check_arguments o.size o.type_ o.type_level o.format_
        o.channels with
    | some e =>
        rw [img_url_args_err key src o w e hc,
          img_url_args_err key src { o with bg := none, bg_type := none }
            w e hc]
    | none =>
        by_cases hm : o.return_bytes = true ∨ o.new_file_name ≠ none
        · rw [img_url_run key src o w hc hm,
            img_url_run key src { o with bg := none, bg_type := none }
              w hc hm]
          rw [sendAndHandle_no_bg key _ _ o w hbg,
            sendAndHandle_no_bg key _ _ _ w hbg2]
          exact doPost_options_congr key _ _ o _ w [] rfl rfl
        · obtain ⟨h1, h2⟩ := not_or.mp hm
          have hrb : o.return_bytes = false := Bool.eq_false_iff.mpr h1
          have hnf : o.new_file_name = none := not_not.mp h2
          rw [img_url_mode_err key src o w hc hnf hrb,
            img_url_mode_err key src
              { o with bg := none, bg_type := none } w hc hnf hrb]
  · cases hc : check_arguments o.size o.type_ o.type_level o.format_
        o.channels with
    | some e =>
        rw [b64_args_err key src o w e hc,
          b64_args_err key src { o with bg := none, bg_type := none }
            w e hc]
    | none =>
        by_cases hm : o.return_bytes = true ∨ o.new_file_name ≠ none
        · rw [b64_run key src o w hc hm,
            b64_run key src { o with bg := none, bg_type := none }
              w hc hm]
          rw [sendAndHandle_no_bg key _ _ o w hbg,
            sendAndHandle_no_bg key _ _ _ w hbg2]
          exact doPost_options_congr key _ _ o _ w [] rfl rfl
        · obtain ⟨h1, h2⟩ := not_or.mp hm
          have hrb : o.return_bytes = false := Bool.eq_false_iff.mpr h1
          have hnf : o.new_file_name = none := not_not.mp h2
          rw [b64_mode_err key src o w hc hnf hrb,
            b64_mode_err key src
              { o with bg := none, bg_type := none } w hc hnf hrb]

/-- C10 witness: an unrecognised bg_type with a non-empty bg behaves exactly
like no background at all. -/
theorem C10_background_silently_ignored_witness :
    remove_background_from_img_file "k" "i.png"
      { bg := some "x", bg_type := some "weird" }
      ⟨none, none, .response ⟨200, [1], .notJson⟩, none⟩ =
    remove_background_from_img_file "k" "i.png"
      { ({ bg := some "x", bg_type := some "weird" } : Options) with
        bg := none, bg_type := none }
      ⟨none, none, .response ⟨200, [1], .notJson⟩, none⟩ :=
  (C10_background_silently_ignored "k" "i.png"
    { bg := some "x", bg_type := some "weird" }
    ⟨none, none, .response ⟨200, [1], .notJson⟩, none⟩ (by decide)).1

theorem find?_append_none {a : Type} (p : a → Bool) (l1 l2 : List a)
    (h : l1.find? p = none) : (l1 ++ l2).find? p = l2.find? p := by
  induction l1 with
  | nil => rfl
  | cons x t ih =>
      cases hpx : p x with
      | true => simp [List.find?_cons, hpx] at h
      | false =>
          simp only [List.find?_cons, hpx] at h
          rw [List.cons_append]
          simp only [List.find?_cons, hpx]
          exact ih h

theorem getField_append_none (d e : List (String × FormValue)) (key : String)
    (h : getField d key = none) : getField (d ++ e) key = getField e key := by
  unfold getField at h ⊢
  rw [Option.map_eq_none'] at h
  rw [find?_append_none _ _ _ h]

theorem bgFieldCount_path_req (fs : List (String × String))
    (d : List (String × FormValue)) (k2 v : String)
    (hfs : fs.find? (fun p => p.1 == "bg_image_file") = none)
    (hc : getField d "bg_color" = none)
    (hu : getField d "bg_image_url" = none) :
    bgFieldCount ⟨fs ++ [("bg_image_file", v)], d, k2⟩ = 1 ∧
    (((fs ++ [("bg_image_file", v)]).find?
        (fun p => p.1 == "bg_image_file")).isSome = true) := by
  have hf : (fs ++ [("bg_image_file", v)]).find?
      (fun p => p.1 == "bg_image_file") = some ("bg_image_file", v) := by
    rw [find?_append_none _ _ _ hfs]
    rfl
  constructor
  · unfold bgFieldCount
    rw [hf, hc, hu]
    rfl
  · rw [hf]
    rfl

theorem bgFieldCount_color_req (fs : List (String × String))
    (d : List (String × FormValue)) (k2 v : String)
    (hfs : fs.find? (fun p => p.1 == "bg_image_file") = none)
    (hc : getField d "bg_color" = none)
    (hu : getField d "bg_image_url" = none) :
    bgFieldCount ⟨fs, d ++ [("bg_color", .str v)], k2⟩ = 1 ∧
    ((getField (d ++ [("bg_color", .str v)]) "bg_color").isSome = true) := by
  have h1 : getField (d ++ [("bg_color", .str v)]) "bg_color" =
      some (.str v) := by
    rw [getField_append_none _ _ _ hc]
    rfl
  have h2 : getField (d ++ [("bg_color", .str v)]) "bg_image_url" = none := by
    rw [getField_append_none _ _ _ hu]
    rfl
  constructor
  · unfold bgFieldCount
    rw [hfs, h1, h2]
    rfl
  · rw [h1]
    rfl

theorem bgFieldCount_url_req (fs : List (String × String))
    (d : List (String × FormValue)) (k2 v : String)
    (hfs : fs.find? (fun p => p.1 == "bg_image_file") = none)
    (hc : getField d "bg_color" = none)
    (hu : getField d "bg_image_url" = none) :
    bgFieldCount ⟨fs, d ++ [("bg_image_url", .str v)], k2⟩ = 1 ∧
    ((getField (d ++ [("bg_image_url", .str v)]) "bg_image_url").isSome =
      true) := by
  have h1 : getField (d ++ [("bg_image_url", .str v)]) "bg_image_url" =
      some (.str v) := by
    rw [getField_append_none _ _ _ hu]
    rfl
  have h2 : getField (d ++ [("bg_image_url", .str v)]) "bg_color" = none := by
    rw [getField_append_none _ _ _ hc]
    rfl
  constructor
  · unfold bgFieldCount
    rw [hfs, h1, h2]
    rfl
  · rw [h1]
    rfl

theorem bgFieldCount_none_req (fs : List (String × String))
    (d : List (String × FormValue)) (k2 : String)
    (hfs : fs.find? (fun p => p.1 == "bg_image_file") = none)
    (hc : getField d "bg_color" = none)
    (hu : getField d "bg_image_url" = none) :
    bgFieldCount ⟨fs, d, k2⟩ = 0 := by
  unfold bgFieldCount
  rw [hfs, hc, hu]
  rfl

theorem sendAndHandle_bg_exclusive (k2 : String)
    (fs : List (String × String)) (d : List (String × FormValue))
    (o : Options) (w : World) (req : Request)
    (hreq : req ∈ (sendAndHandle k2 fs d o w).2.netCalls)
    (hfs : fs.find? (fun p => p.1 == "bg_image_file") = none)
    (hc : getField d "bg_color" = none)
    (hu : getField d "bg_image_url" = none) :
    (o.bg_type = some "path" → strTruthy o.bg = true →
       bgFieldCount req = 1 ∧
       (req.files.find? (fun p => p.1 == "bg_image_file")).isSome = true) ∧
    (o.bg_type = some "color" → strTruthy o.bg = true →
       bgFieldCount req = 1 ∧ (getField req.data "bg_color").isSome = true) ∧
    (o.bg_type = some "url" → strTruthy o.bg = true →
       bgFieldCount req = 1 ∧
       (getField req.data "bg_image_url").isSome = true) ∧
    (¬ bgSpecified o → bgFieldCount req = 0) := by
  rcases sendAndHandle_cases k2 fs d o w with
    hnc | ⟨ht, hb, heq⟩ | ⟨ht, hb, heq⟩ | ⟨ht, hb, heq⟩ | ⟨hnb, heq⟩
  · rw [hnc] at hreq
    cases hreq
  · rw [heq, doPost_netCalls] at hreq
    have hre := List.mem_singleton.mp hreq
    subst hre
    obtain ⟨h1, h2⟩ := bgFieldCount_path_req fs d k2 (o.bg.getD "") hfs hc hu
    refine ⟨fun _ _ => ⟨h1, h2⟩, ?_, ?_, ?_⟩
    · intro hcol _
      rw [ht] at hcol
      simp at hcol
    · intro hurl _
      rw [ht] at hurl
      simp at hurl
    · intro hnb
      exact absurd ⟨Or.inl ht, hb⟩ hnb
  · rw [heq, doPost_netCalls] at hreq
    have hre := List.mem_singleton.mp hreq
    subst hre
    obtain ⟨h1, h2⟩ := bgFieldCount_color_req fs d k2 (o.bg.getD "") hfs hc hu
    refine ⟨?_, fun _ _ => ⟨h1, h2⟩, ?_, ?_⟩
    · intro hpath _
      rw [ht] at hpath
      simp at hpath
    · intro hurl _
      rw [ht] at hurl
      simp at hurl
    · intro hnb
      exact absurd ⟨Or.inr (Or.inl ht), hb⟩ hnb
  · rw [heq, doPost_netCalls] at hreq
    have hre := List.mem_singleton.mp hreq
    subst hre
    obtain ⟨h1, h2⟩ := bgFieldCount_url_req fs d k2 (o.bg.getD "") hfs hc hu
    refine ⟨?_, ?_, fun _ _ => ⟨h1, h2⟩, ?_⟩
    · intro hpath _
      rw [ht] at hpath
      simp at hpath
    · intro hcol _
      rw [ht] at hcol
      simp at hcol
    · intro hnb
      exact absurd ⟨Or.inr (Or.inr ht), hb⟩ hnb
  · rw [heq, doPost_netCalls] at hreq
    have hre := List.mem_singleton.mp hreq
    subst hre
    have h0 := bgFieldCount_none_req fs d k2 hfs hc hu
    refine ⟨?_, ?_, ?_, fun _ => h0⟩
    · intro hpath hb
      exact absurd ⟨Or.inl hpath, hb⟩ hnb
    · intro hcol hb
      exact absurd ⟨Or.inr (Or.inl hcol), hb⟩ hnb
    · intro hurl hb
      exact absurd ⟨Or.inr (Or.inr hurl), hb⟩ hnb

/-- C5: When a background is specified (bg_type in \x7bpath, url, color\x7d
with bg truthy), exactly one of bg_image_file, bg_color, bg_image_url
appears in every outgoing request, the one matching bg_type; with no
background specified no background field appears. -/
theorem C5_background_exclusive (key src : String) (o : Options) (w : World)
    (res : RBResult × Trace)
    (hres : res = remove_background_from_img_file key src o w ∨
            res = remove_background_from_img_url key src o w ∨
            res = remove_background_from_base64_img key src o w)
    (req : Request) (hreq : req ∈ res.2.netCalls) :
    (o.bg_type = some "path" → strTruthy o.bg = true →
       bgFieldCount req = 1 ∧
       (req.files.find? (fun p => p.1 == "bg_image_file")).isSome = true) ∧
    (o.bg_type = some "color" → strTruthy o.bg = true →
       bgFieldCount req = 1 ∧ (getField req.data "bg_color").isSome = true) ∧
    (o.bg_type = some "url" → strTruthy o.bg = true →
       bgFieldCount req = 1 ∧
       (getField req.data "bg_image_url").isSome = true) ∧
    (¬ bgSpecified o → bgFieldCount req = 0) := by
  rcases hres with h | h | h <;> subst h
  · cases hc : check_arguments o.size o.type_ o.type_level o.format_
        o.channels with
    | some e =>
        rw [img_file_args_err key src o w e hc] at hreq
        exact absurd hreq (List.not_mem_nil req)
    | none =>
        cases ho : w.primaryOpenErr with
        | some m =>
            rw [img_file_open_err key src o w m hc ho] at hreq
            exact absurd hreq (List.not_mem_nil req)
        | none =>
            rw [img_file_run key src o w hc ho] at hreq
            have hreq2 : req ∈ (sendAndHandle key [("image_file", src)]
                (commonData o) o w).2.netCalls := hreq
            exact sendAndHandle_bg_exclusive key _ _ o w req hreq2 rfl rfl rfl
  · cases hc : check_arguments o.size o.type_ o.type_level o.format_
        o.channels with
    | some e =>
        rw [img_url_args_err key src o w e hc] at hreq
        exact absurd hreq (List.not_mem_nil req)
    | none =>
        by_cases hm : o.return_bytes = true ∨ o.new_file_name ≠ none
        · rw [img_url_run key src o w hc hm] at hreq
          exact sendAndHandle_bg_exclusive key _ _ o w req hreq rfl rfl rfl
        · obtain ⟨h1, h2⟩ := not_or.mp hm
          rw [img_url_mode_err key src o w hc (not_not.mp h2)
            (Bool.eq_false_iff.mpr h1)] at hreq
          exact absurd hreq (List.not_mem_nil req)
  · cases hc : check_arguments o.size o.type_ o.type_level o.format_
        o.channels with
    | some e =>
        rw [b64_args_err key src o w e hc] at hreq
        exact absurd hreq (List.not_mem_nil req)
    | none =>
        by_cases hm : o.return_bytes = true ∨ o.new_file_name ≠ none
        · rw [b64_run key src o w hc hm] at hreq
          exact sendAndHandle_bg_exclusive key _ _ o w req hreq rfl rfl rfl
        · obtain ⟨h1, h2⟩ := not_or.mp hm
          rw [b64_mode_err key src o w hc (not_not.mp h2)
            (Bool.eq_false_iff.mpr h1)] at hreq
          exact absurd hreq (List.not_mem_nil req)

/-- C5 witness: with bg_type "path" and a background file given, the file
operation's one outgoing request carries exactly one background field, the
binary bg_image_file part. -/
theorem C5_background_exclusive_witness :
    bgFieldCount ⟨[("image_file", "i.png"), ("bg_image_file", "b.png")],
      commonData { bg := some "b.png", bg_type := some "path" }, "k"⟩ = 1 ∧
    (([("image_file", "i.png"), ("bg_image_file", "b.png")] :
        List (String × String)).find?
      (fun p => p.1 == "bg_image_file")).isSome = true :=
  (C5_background_exclusive "k" "i.png"
    { bg := some "b.png", bg_type := some "path" }
    ⟨none, none, .response ⟨200, [], .notJson⟩, none⟩
    (remove_background_from_img_file "k" "i.png"
      { bg := some "b.png", bg_type := some "path" }
      ⟨none, none, .response ⟨200, [], .notJson⟩, none⟩)
    (Or.inl rfl)
    ⟨[("image_file", "i.png"), ("bg_image_file", "b.png")],
      commonData { bg := some "b.png", bg_type := some "path" }, "k"⟩
    (by decide)).1 rfl rfl

theorem sendAndHandle_nonOk (k2 : String) (fs : List (String × String))
    (d : List (String × FormValue)) (o : Options) (w : World) (r : Response)
    (hbgopen : w.bgOpenErr = none) (hpost : w.post = .response r)
    (h2xx : ¬(200 ≤ r.status_code ∧ r.status_code < 300)) :
    nonOkBehavior o r (sendAndHandle k2 fs d o w) := by
  obtain ⟨h1, h2, h3, h4⟩ := sendAndHandle_response_fields k2 fs d o w r
    hbgopen hpost
  have h200 : r.status_code ≠ 200 := fun he => h2xx (by omega)
  constructor
  · intro hs
    have hre := handleResponse_raise r o.new_file_name o.return_bytes
      w.writeErr hs
    exact ⟨h1.trans (congrArg Prod.fst hre),
      h3.trans (congrArg (fun p => p.2.log) hre),
      h4.trans (congrArg (fun p => p.2.written) hre)⟩
  · intro hs
    have hre := handleResponse_no_raise r o.new_file_name o.return_bytes
      w.writeErr hs
    have hA := h1.trans (congrArg Prod.fst hre)
    have hW := h4.trans (congrArg (fun p => p.2.written) hre)
    have hL := h3.trans (congrArg (fun p => p.2.log) hre)
    refine ⟨?_, ?_, ?_⟩
    · cases hrb : o.return_bytes with
      | true =>
          rw [hrb] at hA
          exact ⟨some r.content, hA⟩
      | false =>
          rw [hrb] at hA
          exact ⟨none, hA⟩
    · by_cases hn : strTruthy o.new_file_name = true
      · rw [if_pos hn, output_file_err r _ w.writeErr h200] at hW
        exact hW
      · rw [if_neg hn] at hW
        exact hW
    · intro hn
      rw [if_pos hn, output_file_err r _ w.writeErr h200] at hL
      exact hL

/-- C1 counterexample: a call reaching the response-handling phase with a
400 response raises an HTTPError to the caller (via raise_for_status) and
logs nothing, contradicting the claim that non-2xx responses are logged and
the call returns normally. -/
theorem C1_counterexample :
    (remove_background_from_img_file "k" "i.png" {}
      ⟨none, none, .response ⟨400, [], .notJson⟩, none⟩).1 =
      .error (.httpError 400) ∧
    (remove_background_from_img_file "k" "i.png" {}
      ⟨none, none, .response ⟨400, [], .notJson⟩, none⟩).2.log = [] := by
  decide

/-- C1 (amended): once the response-handling phase is reached with a non-2xx
response, a status in [400, 600) makes the call raise an HTTPError to the
caller with nothing logged and nothing written, while a non-2xx status
outside [400, 600) returns normally, writes nothing, and (when a truthy
destination file name was given) logs the file name, the extracted reason
and the status code. -/
theorem C1_nonok_raise_or_log (key src : String) (o : Options) (w : World)
    (r : Response) (hvalid : validEnums o)
    (hmode : o.return_bytes = true ∨ o.new_file_name ≠ none)
    (hopen : w.primaryOpenErr = none) (hbgopen : w.bgOpenErr = none)
    (hpost : w.post = .response r)
    (h2xx : ¬(200 ≤ r.status_code ∧ r.status_code < 300)) :
    nonOkBehavior o r (remove_background_from_img_file key src o w) ∧
    nonOkBehavior o r (remove_background_from_img_url key src o w) ∧
    nonOkBehavior o r (remove_background_from_base64_img key src o w) := by
  have hc : check_arguments o.size o.type_ o.type_level o.format_
      o.channels = none :=
    (check_arguments_eq_none_iff o.size o.type_ o.type_level o.format_
      o.channels).mpr hvalid
  refine ⟨?_, ?_, ?_⟩
  · rw [img_file_run key src o w hc hopen]
    exact sendAndHandle_nonOk key _ _ o w r hbgopen hpost h2xx
  · rw [img_url_run key src o w hc hmode]
    exact sendAndHandle_nonOk key _ _ o w r hbgopen hpost h2xx
  · rw [b64_run key src o w hc hmode]
    exact sendAndHandle_nonOk key _ _ o w r hbgopen hpost h2xx

/-- C1 witness: the amended theorem applied to a 400-response world for the
file operation. -/
theorem C1_nonok_raise_or_log_witness :
    nonOkBehavior {} ⟨400, [], .notJson⟩
      (remove_background_from_img_file "k" "i.png" {}
        ⟨none, none, .response ⟨400, [], .notJson⟩, none⟩) :=
  (C1_nonok_raise_or_log "k" "i.png" {}
    ⟨none, none, .response ⟨400, [], .notJson⟩, none⟩ ⟨400, [], .notJson⟩
    (by decide) (Or.inr (by decide)) rfl rfl rfl (by decide)).1

theorem sendAndHandle_success (k2 : String) (fs : List (String × String))
    (d : List (String × FormValue)) (o : Options) (w : World) (r : Response)
    (hbgopen : w.bgOpenErr = none) (hpost : w.post = .response r)
    (h2xx : 200 ≤ r.status_code ∧ r.status_code < 300) :
    successBehavior o w r (sendAndHandle k2 fs d o w) := by
  obtain ⟨h1, h2, h3, h4⟩ := sendAndHandle_response_fields k2 fs d o w r
    hbgopen hpost
  have hnr : ¬(400 ≤ r.status_code ∧ r.status_code < 600) := by omega
  have hre := handleResponse_no_raise r o.new_file_name o.return_bytes
    w.writeErr hnr
  have hA := h1.trans (congrArg Prod.fst hre)
  have hW := h4.trans (congrArg (fun p => p.2.written) hre)
  have hL := h3.trans (congrArg (fun p => p.2.log) hre)
  refine ⟨?_, ?_, ?_, ?_, ?_⟩
  · intro hrb
    rw [hrb] at hA
    exact hA
  · intro hrb
    rw [hrb] at hA
    exact hA
  · intro hs hn hwe
    rw [if_pos hn, hwe, output_file_ok_write r _ hs] at hW hL
    exact ⟨hW, hL⟩
  · intro hs hn ex hwe
    rw [if_pos hn, hwe, output_file_ok_writeFail r _ ex hs] at hW hL
    exact ⟨hW, hL⟩
  · intro hs
    by_cases hn : strTruthy o.new_file_name = true
    · rw [if_pos hn, output_file_err r _ w.writeErr hs] at hW
      exact hW
    · rw [if_neg hn] at hW
      exact hW

/-- C7 counterexample: a 201 response with non-empty binary content and a
destination file name writes nothing — `_output_file` treats any status
other than exactly 200 as an error — contradicting the claim that every 2xx
response's bytes are written verbatim. -/
theorem C7_counterexample :
    (200 ≤ 201 ∧ 201 < 300) ∧
    (remove_background_from_img_file "k" "i.png" {}
      ⟨none, none, .response ⟨201, [1, 2, 3], .notJson⟩, none⟩).2.written =
      [] ∧
    (remove_background_from_img_file "k" "i.png" {}
      ⟨none, none, .response ⟨201, [1, 2, 3], .notJson⟩, none⟩).2.log =
      [.apiError "no-bg.png" "unknown error" 201] ∧
    (remove_background_from_img_file "k" "i.png" {}
      ⟨none, none, .response ⟨201, [1, 2, 3], .notJson⟩, none⟩).1 =
      .ok none := by
  refine ⟨by omega, ?_, ?_, ?_⟩ <;> decide

/-- C7 (amended): for a 2xx response, `return_bytes=True` returns exactly the
response content; the bytes are written verbatim to the destination file
exactly when the status is 200 (a 2xx status other than 200 is treated as an
error and nothing is written); a write failure is caught and logged, never
propagated. -/
theorem C7_success_roundtrip (key src : String) (o : Options) (w : World)
    (r : Response) (hvalid : validEnums o)
    (hmode : o.return_bytes = true ∨ o.new_file_name ≠ none)
    (hopen : w.primaryOpenErr = none) (hbgopen : w.bgOpenErr = none)
    (hpost : w.post = .response r)
    (h2xx : 200 ≤ r.status_code ∧ r.status_code < 300) :
    successBehavior o w r (remove_background_from_img_file key src o w) ∧
    successBehavior o w r (remove_background_from_img_url key src o w) ∧
    successBehavior o w r (remove_background_from_base64_img key src o w)
    := by
  have hc : check_arguments o.size o.type_ o.type_level o.format_
      o.channels = none :=
    (check_arguments_eq_none_iff o.size o.type_ o.type_level o.format_
      o.channels).mpr hvalid
  refine ⟨?_, ?_, ?_⟩
  · rw [img_file_run key src o w hc hopen]
    exact sendAndHandle_success key _ _ o w r hbgopen hpost h2xx
  · rw [img_url_run key src o w hc hmode]
    exact sendAndHandle_success key _ _ o w r hbgopen hpost h2xx
  · rw [b64_run key src o w hc hmode]
    exact sendAndHandle_success key _ _ o w r hbgopen hpost h2xx

/-- C7 witness: the amended theorem applied to a 200-response world with
`return_bytes=True` for the file operation. -/
theorem C7_success_roundtrip_witness :
    successBehavior { return_bytes := true }
      ⟨none, none, .response ⟨200, [7, 8], .notJson⟩, none⟩
      ⟨200, [7, 8], .notJson⟩
      (remove_background_from_img_file "k" "i.png" { return_bytes := true }
        ⟨none, none, .response ⟨200, [7, 8], .notJson⟩, none⟩) :=
  (C7_success_roundtrip "k" "i.png" { return_bytes := true }
    ⟨none, none, .response ⟨200, [7, 8], .notJson⟩, none⟩
    ⟨200, [7, 8], .notJson⟩ (by decide) (Or.inl rfl) rfl rfl rfl
    (by decide)).1

end RemoveBg
